import Mathlib

/-!
Verification development for the Harmonia memory system.

Shallow embedding of the parts of the code base that the checked
properties speak about:

* `src/db/multi_db_manager.py` — the multi-tenant router
  (`_get_user_db_path`, `_get_or_create_db_manager`,
  `_initialize_user_database`, `get_user_db_manager`);
* `src/db/schema.py` — the set of attributes `DatabaseSchema` defines;
* `src/db/manager.py` — `DatabaseManager.search_memories` (its SQL query
  is given a denotational list semantics);
* `src/processing/conflict_detector.py` — content normalisation, the
  similarity computation (including a faithful model of the CPython
  `difflib.SequenceMatcher` matching-block algorithm), conflict
  classification and the conflict sort;
* `src/processing/conflict_resolver.py` — strategy determination, the
  replace handler, audit-entry creation and `rollback_resolution`;
* `src/processing/memory_processor.py` — the threshold filter and the
  confidence sort of `process_message` (steps 8 and 9);
* `src/search/search_engine.py` — `_apply_recency_boost`.

Python floats are modelled by the rationals; Python strings by Lean
strings, with the string-classification primitives (`str.isalnum`,
`str.lower`, the regex classes `\w` and `\s`) modelled on the ASCII
range.  Quantities derived from wall-clock time (`datetime.now`,
`uuid.uuid4`) are threaded through the state explicitly.
-/

namespace Harmonia

/-! ## String primitives -/

/-- Whitespace characters of the regex class `\s` (ASCII range). -/
def isPyWhitespace (c : Char) : Bool :=
  c = ' ' || c = '\t' || c = '\n' || c = '\x0d' || c = '\x0b' || c = '\x0c'

/-- Characters of the regex class `\w` (ASCII range): letters, digits
and the underscore. -/
def isWordChar (c : Char) : Bool :=
  c.isAlphanum || c = '_'

/-- Python string comparison on the underlying character lists:
lexicographic by code point. -/
def pyStrLtL : List Char → List Char → Bool
  | [], [] => false
  | [], _ :: _ => true
  | _ :: _, [] => false
  | c :: cs, d :: ds =>
    if c.toNat < d.toNat then true
    else if d.toNat < c.toNat then false
    else pyStrLtL cs ds

/-- Python string comparison (`s < t`). -/
def pyStrLt (s t : String) : Bool :=
  pyStrLtL s.data t.data

/-- Python substring containment (`needle in hay`). -/
def containsSubstr (needle hay : String) : Bool :=
  (List.range (hay.data.length + 1)).any fun i =>
    needle.data.isPrefixOf (hay.data.drop i)

/-- Python `str.lower`, modelled on the ASCII range. -/
def lowerStr (s : String) : String :=
  ⟨s.data.map Char.toLower⟩

/-! ## Multi-tenant router (`src/db/multi_db_manager.py`)

State of the router: the cache of per-user database managers (a manager
is identified by the database path it serves), the set of directories
and the set of files that exist on disk. -/

/-- Filesystem-and-cache state of the `MultiDatabaseManager`. -/
structure RouterState where
  cache : List (String × String)
  dirs : List String
  files : List String
deriving DecidableEq

/-- Error outcomes of the router, tagging the `raise` sites of
`multi_db_manager.py`.  `accessFailed e` is the
`UserDatabaseError("Failed to access user database: ...")` re-raise in
`_get_or_create_db_manager`, wrapping the inner failure `e`. -/
inductive RouterErr where
  | emptyUser : RouterErr
  | invalidUser : RouterErr
  | initFailed : RouterErr
  | accessFailed : RouterErr → RouterErr
deriving DecidableEq

/-- The character filter of `_get_user_db_path`:
`c.isalnum() or c in ('-', '_', '.')`, with `isalnum` modelled on the
ASCII range (where it coincides with the class `[A-Za-z0-9]`). -/
def isSafeChar (c : Char) : Bool :=
  c.isAlphanum || c = '-' || c = '_' || c = '.'

/-- `safe_user_id = "".join(c for c in user_id if c.isalnum() or c in ('-', '_', '.'))`. -/
def sanitizeUserId (user : String) : String :=
  ⟨user.data.filter isSafeChar⟩

/-- Base directory for user databases: the configured database path
`./data/harmonia.db` has parent `data`, joined with `users`. -/
def usersBasePath : String := "data/users"

/-- Directory holding a given user database
(`self.base_path / safe_user_id`). -/
def userDirOf (user : String) : String :=
  usersBasePath ++ "/" ++ sanitizeUserId user

/-- `MultiDatabaseManager._get_user_db_path`: strips the unsafe
characters from the user id and fails with `invalid_user` only when
nothing is left. -/
def getUserDbPath (user : String) : Except RouterErr String :=
  if sanitizeUserId user = "" then .error .invalidUser
  else .ok (userDirOf user ++ "/harmonia.db")

/-- Attributes the class `DatabaseSchema` of `src/db/schema.py`
actually defines. -/
def schemaAttrNames : List String :=
  ["SCHEMA_VERSION", "CREATE_TABLES", "CREATE_FTS_TABLE",
   "CREATE_INDEXES", "CREATE_TRIGGERS", "DEFAULT_DATA",
   "initialize_database", "validate_schema", "get_table_info",
   "test_fts_functionality"]

/-- Attribute lookup on a `DatabaseSchema` instance. -/
def schemaHasAttr (name : String) : Bool :=
  name ∈ schemaAttrNames

/-- Record that a directory or file now exists. -/
def listInsert (s : String) (l : List String) : List String :=
  if s ∈ l then l else l ++ [s]

/-- `MultiDatabaseManager._initialize_user_database`: obtains a pool
connection (which creates the SQLite file on disk), then calls
`schema.create_tables_without_user_id`,
`schema.create_indexes_without_user_id`, `schema.create_fts_tables` and
`schema.create_fts_triggers_per_user` in sequence.  A missing attribute
raises `AttributeError`, which the `except` clause converts into
`UserDatabaseError("Database initialization failed: ...")`, here
`initFailed`. -/
def initializeUserDatabase (st : RouterState) (dbPath : String) :
    RouterState × Option RouterErr :=
  let st1 : RouterState := { st with files := listInsert dbPath st.files }
  if schemaHasAttr "create_tables_without_user_id" then
    if schemaHasAttr "create_indexes_without_user_id" then
      if schemaHasAttr "create_fts_tables" then
        if schemaHasAttr "create_fts_triggers_per_user" then
          (st1, none)
        else (st1, some .initFailed)
      else (st1, some .initFailed)
    else (st1, some .initFailed)
  else (st1, some .initFailed)

/-- `MultiDatabaseManager._get_or_create_db_manager`: cache hit returns
the cached manager; otherwise the user path is computed, the user
directory created, and — when the database file does not yet exist —
the schema is initialised before the manager is cached.  Any exception
inside the `try` block is re-raised as
`UserDatabaseError("Failed to access user database: ...")`
(`accessFailed`). -/
def getOrCreateDbManager (user : String) (st : RouterState) :
    Except RouterErr String × RouterState :=
  match st.cache.lookup user with
  | some handle => (.ok handle, st)
  | none =>
    match getUserDbPath user with
    | .error e => (.error (.accessFailed e), st)
    | .ok dbPath =>
      let st1 : RouterState := { st with dirs := listInsert (userDirOf user) st.dirs }
      let dbExists := dbPath ∈ st1.files
      if dbExists then
        (.ok dbPath, { st1 with cache := (user, dbPath) :: st1.cache })
      else
        match initializeUserDatabase st1 dbPath with
        | (st2, some e) => (.error (.accessFailed e), st2)
        | (st2, none) => (.ok dbPath, { st2 with cache := (user, dbPath) :: st2.cache })

/-- `MultiDatabaseManager.get_user_db_manager`: rejects the empty user
id, then delegates to `_get_or_create_db_manager`. -/
def getUserDbManager (user : String) (st : RouterState) :
    Except RouterErr String × RouterState :=
  if user = "" then (.error .emptyUser, st)
  else getOrCreateDbManager user st

/-! ## The CPython `difflib.SequenceMatcher` algorithm

`ConflictDetector.calculate_similarity` computes its base similarity as
`difflib.SequenceMatcher(None, a, b).ratio()`.  The modelled regime is
the one in which every input of this development lives: no explicit
junk predicate, and second sequences shorter than 200 characters, so the
autojunk popularity heuristic is inactive and the post-loop junk
extension phases of `find_longest_match` are the identity. -/

/-- Positions (ascending) of a character in the second sequence — the
`b2j` index of `SequenceMatcher`. -/
def charPositions (c : Char) (b : List Char) : List Nat :=
  (List.range b.length).filter fun j => b.getD j ' ' = c

/-- `SequenceMatcher.find_longest_match` over the full ranges of `a`
and `b`: returns `(besti, bestj, bestsize)`.  Follows the Python loop
literally: `j2len` maps a position `j` of `b` to the length of the
common run ending at the current `i` and at `j`; the best block is
replaced only on strictly larger size, so the earliest maximal block
(ordered by end position in `a`, then in `b`) is kept. -/
def findLongestMatch (a b : List Char) : Nat × Nat × Nat :=
  let rowStep := fun (acc : (Nat → Nat) × (Nat × Nat × Nat)) (i : Nat) =>
    let j2len := acc.1
    let js := charPositions (a.getD i ' ') b
    js.foldl
      (fun (acc2 : (Nat → Nat) × (Nat × Nat × Nat)) (j : Nat) =>
        let k := (if j = 0 then 0 else j2len (j - 1)) + 1
        let next := fun j' => if j' = j then k else acc2.1 j'
        let best := acc2.2
        (next, if best.2.2 < k then (i + 1 - k, j + 1 - k, k) else best))
      (fun _ => 0, acc.2)
  ((List.range a.length).foldl rowStep (fun _ => 0, (0, 0, 0))).2

/-- Total size of all matching blocks — the recursive part of
`SequenceMatcher.get_matching_blocks`, fuelled for termination.  The
fuel is a strict bound on the recursion depth, which shrinks the
combined length of the two ranges at every level. -/
def matchTotalAux : Nat → List Char → List Char → Nat
  | 0, _, _ => 0
  | fuel + 1, a, b =>
    let m := findLongestMatch a b
    let i := m.1
    let j := m.2.1
    let k := m.2.2
    if k = 0 then 0
    else
      k + matchTotalAux fuel (a.take i) (b.take j)
        + matchTotalAux fuel (a.drop (i + k)) (b.drop (j + k))

/-- Sum of the sizes of the matching blocks of `a` and `b`. -/
def matchTotal (a b : List Char) : Nat :=
  matchTotalAux (a.length + b.length + 1) a b

/-- `SequenceMatcher.ratio`: `2 * M / T` where `M` is the total size of
the matching blocks and `T` the combined length.  (`T = 0` never occurs
in `calculate_similarity`, which returns early on empty contents.) -/
def ratioOf (a b : List Char) : ℚ :=
  if a.length + b.length = 0 then 0
  else 2 * (matchTotal a b : ℚ) / ((a.length : ℚ) + (b.length : ℚ))

/-! ## Content normalisation (`ConflictDetector._normalize_content`) -/

/-- Python `str.strip` (whitespace from both ends, ASCII range). -/
def pyStrip (l : List Char) : List Char :=
  ((l.dropWhile isPyWhitespace).reverse.dropWhile isPyWhitespace).reverse

/-- `re.sub(r'\s+', ' ', s)`: each maximal whitespace run becomes a
single space.  The flag records whether the previous character was
whitespace. -/
def collapseWsAux : Bool → List Char → List Char
  | _, [] => []
  | prevWs, c :: cs =>
    if isPyWhitespace c then
      if prevWs then collapseWsAux true cs else ' ' :: collapseWsAux true cs
    else c :: collapseWsAux false cs

/-- `ConflictDetector._normalize_content`: lower-case and strip, then
collapse whitespace runs, then delete every character matching
`[^\w\s]`. -/
def normalizeContent (s : String) : String :=
  ⟨(collapseWsAux false (pyStrip (s.data.map Char.toLower))).filter
      fun c => isWordChar c || isPyWhitespace c⟩

/-! ## Entity-based similarity
(`ConflictDetector._calculate_entity_similarity`)

The per-type entity lists come from the regex sweep
`ConflictDetector._extract_entities`; that extractor is kept abstract
(a parameter `E : String → EntityDict` of the similarity function), and
every theorem about the similarity quantifies over it.  The combination
of the two extracted dictionaries is embedded faithfully. -/

/-- Result of `_extract_entities`: the matches per entity type, in the
key order of `entity_patterns`. -/
structure EntityDict where
  person : List String
  location : List String
  organization : List String
  date : List String
  time : List String

/-- Truthiness of the extracted dictionary (`not entities`): the
patterns only create a key when they matched, so the dictionary is
falsy exactly when every type has no matches. -/
def EntityDict.isEmptyDict (d : EntityDict) : Bool :=
  d.person.isEmpty && d.location.isEmpty && d.organization.isEmpty &&
    d.date.isEmpty && d.time.isEmpty

/-- Jaccard overlap of two match lists viewed as Python sets:
`len(set1 & set2) / len(set1 | set2)`, and `0` for an empty union. -/
def jaccardQ (l1 l2 : List String) : ℚ :=
  let s1 := l1.toFinset
  let s2 := l2.toFinset
  if (s1 ∪ s2).card = 0 then 0
  else ((s1 ∩ s2).card : ℚ) / ((s1 ∪ s2).card : ℚ)

/-- Contribution of one entity type to the similarity loop: a type
participates when either set is nonempty, scoring the Jaccard overlap
when both are and `0` otherwise.  Returns `(similarity, counted)`. -/
def typeContrib (l1 l2 : List String) : ℚ × Nat :=
  if l1.toFinset = ∅ ∧ l2.toFinset = ∅ then (0, 0)
  else if l1.toFinset ≠ ∅ ∧ l2.toFinset ≠ ∅ then (jaccardQ l1 l2, 1)
  else (0, 1)

/-- `ConflictDetector._calculate_entity_similarity` on the two
extracted dictionaries: `0` when both are falsy, otherwise the average
of the per-type contributions over the participating types. -/
def entitySimilarityOf (d1 d2 : EntityDict) : ℚ :=
  if d1.isEmptyDict ∧ d2.isEmptyDict then 0
  else
    let cs := [typeContrib d1.person d2.person,
               typeContrib d1.location d2.location,
               typeContrib d1.organization d2.organization,
               typeContrib d1.date d2.date,
               typeContrib d1.time d2.time]
    let tot := (cs.map Prod.fst).sum
    let cnt := (cs.map Prod.snd).sum
    if cnt = 0 then 0 else tot / (cnt : ℚ)

/-- `ConflictDetector.calculate_similarity`: `0` for an empty content,
`1` for equal normalised contents, otherwise
`min(0.7 * ratio + 0.3 * entity_similarity, 1)` where the ratio is
taken on the normalised contents and the entity similarity on the raw
contents.  `E` is the abstract entity extractor. -/
def calculateSimilarity (E : String → EntityDict) (c1 c2 : String) : ℚ :=
  if c1 = "" ∨ c2 = "" then 0
  else
    let n1 := normalizeContent c1
    let n2 := normalizeContent c2
    if n1 = n2 then 1
    else
      min ((7 / 10) * ratioOf n1.data n2.data
            + (3 / 10) * entitySimilarityOf (E c1) (E c2)) 1

/-! ## Data model (`src/models/memory.py`)

The fields of a `Memory` that the verified operations read.  Instants
(`timestamp`, `created_at`, `updated_at`) are rationals — seconds for
`timestamp` (matching `total_seconds()` in the detector), abstract
instants elsewhere; metadata is the string-valued part of the key/value
map. -/

structure Memory where
  memory_id : String
  user_id : String
  content : String
  category : Option String := none
  confidence_score : Option ℚ := none
  timestamp : Option ℚ := none
  created_at : Option ℚ := none
  updated_at : Option ℚ := none
  metadata : List (String × String) := []
  is_active : Bool := true
deriving DecidableEq

/-! ## Conflict detector (`src/processing/conflict_detector.py`) -/

/-- The `ConflictSeverity` enumeration. -/
inductive ConflictSeverity where
  | low | medium | high | critical
deriving DecidableEq

/-- The `.value` string of a severity. -/
def ConflictSeverity.value : ConflictSeverity → String
  | .low => "low"
  | .medium => "medium"
  | .high => "high"
  | .critical => "critical"

/-- The `ConflictType` enumeration. -/
inductive PyConflictType where
  | exact_duplicate | partial_duplicate | contradiction
  | temporal_overlap | update_needed | merge_candidate | related_memory
deriving DecidableEq

/-- The `.value` string of a conflict type. -/
def PyConflictType.value : PyConflictType → String
  | .exact_duplicate => "exact_duplicate"
  | .partial_duplicate => "partial_duplicate"
  | .contradiction => "contradiction"
  | .temporal_overlap => "temporal_overlap"
  | .update_needed => "update_needed"
  | .merge_candidate => "merge_candidate"
  | .related_memory => "related_memory"

/-- A detected `Conflict` (the `details` dictionary is represented by
its `reason` string). -/
structure Conflict where
  conflict_type : PyConflictType
  severity : ConflictSeverity
  new_memory : Memory
  existing_memory : Memory
  similarity_score : ℚ
  confidence : ℚ
  details : String
  suggested_action : String
deriving DecidableEq

/-- The update-cue phrases of `ConflictDetector._is_update`. -/
def updateIndicators : List String :=
  ["now works at", "moved to", "recently", "currently",
   "updated", "changed", "new", "latest"]

/-- `ConflictDetector._is_update`: both creation instants present, the
new one strictly later, and the lower-cased new content contains one of
the cue phrases. -/
def isUpdateMem (newM exM : Memory) : Bool :=
  match newM.created_at, exM.created_at with
  | some tn, some te =>
    if te < tn then
      updateIndicators.any fun ind => containsSubstr ind (lowerStr newM.content)
    else false
  | _, _ => false

/-- `ConflictDetector._has_temporal_overlap`: both timestamps present
and at most two hours apart
(`abs(total_seconds / 3600) <= temporal_overlap_threshold`). -/
def hasTemporalOverlap (newM exM : Memory) : Bool :=
  match newM.timestamp, exM.timestamp with
  | some t1, some t2 => |t1 - t2| / 3600 ≤ 2
  | _, _ => false

/-- `ConflictDetector._detect_conflict_type`, with thresholds
`0.95 / 0.6 / 0.4`.  The regex-driven `_is_contradiction` is kept
abstract as `isContra`; every theorem quantifies over it. -/
def detectConflictType (isContra : String → String → Bool)
    (newM exM : Memory) (sim : ℚ) : Option Conflict :=
  if 95 / 100 ≤ sim then
    some ⟨.exact_duplicate, .low, newM, exM, sim, 95 / 100,
      "Nearly identical content", "update_timestamp"⟩
  else if 6 / 10 ≤ sim then
    if isContra newM.content exM.content then
      some ⟨.contradiction, .high, newM, exM, sim, 85 / 100,
        "Contradictory information detected", "resolve_contradiction"⟩
    else if isUpdateMem newM exM then
      some ⟨.update_needed, .medium, newM, exM, sim, 8 / 10,
        "Content appears to be an update", "update_memory"⟩
    else
      some ⟨.merge_candidate, .medium, newM, exM, sim, 75 / 100,
        "Similar content that could be merged", "merge_memories"⟩
  else if hasTemporalOverlap newM exM then
    some ⟨.temporal_overlap, .medium, newM, exM, sim, 7 / 10,
      "Temporal overlap detected", "check_temporal_conflict"⟩
  else if 4 / 10 ≤ sim then
    some ⟨.related_memory, .low, newM, exM, sim, 6 / 10,
      "Related content detected", "link_memories"⟩
  else none

/-- The sort key comparison of `detect_conflicts`:
`conflicts.sort(key=lambda c: (c.severity.value, -c.similarity_score))`
— Python tuple order on the severity-name string and the negated
similarity. -/
def conflictSortLe (c1 c2 : Conflict) : Bool :=
  pyStrLt c1.severity.value c2.severity.value ||
    (c1.severity.value == c2.severity.value &&
      decide (-c1.similarity_score ≤ -c2.similarity_score))

/-- `ConflictDetector.detect_conflicts`: skip inactive memories,
classify each remaining one against the candidate using the computed
similarity, then sort by the `(severity.value, -similarity)` key
(Python `list.sort` is a stable ascending sort, as is `mergeSort`). -/
def detectConflicts (E : String → EntityDict)
    (isContra : String → String → Bool)
    (newM : Memory) (existing : List Memory) : List Conflict :=
  ((existing.filter (·.is_active)).filterMap fun ex =>
      detectConflictType isContra newM ex
        (calculateSimilarity E newM.content ex.content)).mergeSort
    conflictSortLe

/-! ## Conflict resolver (`src/processing/conflict_resolver.py`) -/

/-- The `ResolutionStrategy` enumeration. -/
inductive ResolutionStrategy where
  | update_timestamp | replace | merge | link
  | create_new | user_choose | keep_both | archive_old
deriving DecidableEq

/-- The `.value` string of a strategy. -/
def ResolutionStrategy.value : ResolutionStrategy → String
  | .update_timestamp => "update_timestamp"
  | .replace => "replace"
  | .merge => "merge"
  | .link => "link"
  | .create_new => "create_new"
  | .user_choose => "user_choose"
  | .keep_both => "keep_both"
  | .archive_old => "archive_old"

/-- The `ResolutionStrategy(preferred_strategy)` constructor: `some`
for a valid value string, `none` for the `ValueError` case. -/
def strategyFromString (s : String) : Option ResolutionStrategy :=
  if s = "update_timestamp" then some .update_timestamp
  else if s = "replace" then some .replace
  else if s = "merge" then some .merge
  else if s = "link" then some .link
  else if s = "create_new" then some .create_new
  else if s = "user_choose" then some .user_choose
  else if s = "keep_both" then some .keep_both
  else if s = "archive_old" then some .archive_old
  else none

/-- The `ResolutionAction` enumeration. -/
inductive ResolutionAction where
  | created | updated | merged | replaced | linked | archived | no_action
deriving DecidableEq

/-- `UserPreferences` (the fields `_determine_strategy` and the
handlers read). -/
structure UserPreferences where
  default_strategy : ResolutionStrategy := .merge
  auto_resolve_duplicates : Bool := true
  preserve_original : Bool := true
  confidence_threshold : ℚ := 8 / 10
  max_merge_attempts : Nat := 3
  preferred_resolution_by_type : List (String × String) := []

/-- The default strategy chain of `_determine_strategy` (the `elif`
ladder after the preference lookup). -/
def defaultStrategyFor (c : Conflict) (prefs : UserPreferences) :
    ResolutionStrategy :=
  match c.conflict_type with
  | .exact_duplicate => .update_timestamp
  | .partial_duplicate => .merge
  | .update_needed => .replace
  | .temporal_overlap => .user_choose
  | .related_memory => .link
  | .merge_candidate => .merge
  | _ => prefs.default_strategy

/-- `ConflictResolver._determine_strategy`: contradictions are decided
by confidence alone (`replace` when the new memory is strictly more
confident and meets the threshold, else `user_choose`); for every other
type the user-preference map is consulted first (an invalid value
string falls through), then the built-in defaults. -/
def determineStrategy (c : Conflict) (prefs : UserPreferences) :
    ResolutionStrategy :=
  if c.conflict_type = .contradiction then
    let newConf := c.new_memory.confidence_score.getD 0
    let exConf := c.existing_memory.confidence_score.getD 0
    if exConf < newConf ∧ prefs.confidence_threshold ≤ newConf then .replace
    else .user_choose
  else
    match prefs.preferred_resolution_by_type.lookup c.conflict_type.value with
    | some s =>
      match strategyFromString s with
      | some strat => strat
      | none => defaultStrategyFor c prefs
    | none => defaultStrategyFor c prefs

/-- Render an instant for storage inside string-valued metadata
(standing for `datetime.isoformat`). -/
def ratStr (q : ℚ) : String :=
  toString q.num ++ "/" ++ toString q.den

/-- Python dictionary assignment `md[k] = v` on the metadata map. -/
def metaSet (md : List (String × String)) (k v : String) :
    List (String × String) :=
  if md.any (·.1 == k) then md.map fun p => if p.1 == k then (k, v) else p
  else md ++ [(k, v)]

/-- An audit-trail entry (`AuditEntry` of the resolver); `rollback_of`
is the `metadata['rollback_of']` mark carried by rollback markers, and
`rollback_original_states` the `original_states` part of the rollback
payload. -/
structure AuditEntryL where
  audit_id : String
  user_id : String
  action : ResolutionAction
  strategy : ResolutionStrategy
  conflict_type : PyConflictType
  memory_ids : List String
  original_content : List (String × String)
  new_content : List (String × String)
  rollback_original_states : List (String × String)
  rollback_of : Option String
deriving DecidableEq

/-- The resolver state: the user memories reachable through the
conflicts (the Python objects the handlers mutate in place), the
in-memory audit trail, a counter standing for `uuid.uuid4`, and the
current instant standing for `datetime.now()`. -/
structure ResolverState where
  memories : List Memory
  audit_trail : List AuditEntryL
  fresh : Nat
  now : ℚ
deriving DecidableEq

/-- Deterministic stand-in for `uuid.uuid4()`. -/
def freshId (n : Nat) : String :=
  "uuid-" ++ toString n

/-- `ConflictResolver._replace_memory`, the object mutations: the new
memory optionally records the replaced id and original creation
instant, the existing memory is archived
(`is_active = False`, `archived_reason`, `replaced_by`, fresh
`updated_at`).  Returns `none` for the `AttributeError` raised when
`preserve_original` is set but the existing memory has no
`created_at`. -/
def replaceMemoryPair (c : Conflict) (prefs : UserPreferences) (now : ℚ) :
    Option (Memory × Memory) :=
  let newM := c.new_memory
  let exM := c.existing_memory
  let newM' :=
    if prefs.preserve_original then
      match exM.created_at with
      | some t =>
        let md := metaSet
          (metaSet newM.metadata "replaced_memory_id" exM.memory_id)
          "original_created_at" (ratStr t)
        some { newM with metadata := md }
      | none => none
    else some newM
  match newM' with
  | none => none
  | some newM' =>
    some (newM',
      { exM with
        is_active := false
        metadata := metaSet (metaSet exM.metadata "archived_reason"
          "replaced_by_newer") "replaced_by" newM.memory_id
        updated_at := some now })

/-- `ConflictResolver._create_audit_entry` for the resolution produced
by `_replace_memory` (primary memory the new one, affected memories the
archived existing one): the ids, the new content of the primary, the
original content of the affected memory, and a rollback payload whose
`original_states` repeats the original contents. -/
def createAuditEntryReplaced (c : Conflict) (newM' exM' : Memory)
    (aid : String) : AuditEntryL :=
  { audit_id := aid
    user_id := newM'.user_id
    action := .replaced
    strategy := .replace
    conflict_type := c.conflict_type
    memory_ids := [newM'.memory_id, exM'.memory_id]
    original_content := [(exM'.memory_id, exM'.content)]
    new_content := [(newM'.memory_id, newM'.content)]
    rollback_original_states := [(exM'.memory_id, exM'.content)]
    rollback_of := none }

/-- In-place mutation of a shared `Memory` object, seen through the
state: every occurrence of the id takes the new value. -/
def updateMemoryById (l : List Memory) (m : Memory) : List Memory :=
  l.map fun x => if x.memory_id = m.memory_id then m else x

/-- `ConflictResolver.resolve_conflict` on a conflict whose determined
strategy is `replace`: run the handler, record the audit entry, return
the audit id.  A handler exception is caught and yields a `no_action`
resolution with no audit entry (`none`). -/
def resolveConflictReplace (st : ResolverState) (c : Conflict)
    (prefs : UserPreferences) : ResolverState × Option String :=
  match replaceMemoryPair c prefs st.now with
  | none => (st, none)
  | some (newM', exM') =>
    let aid := freshId st.fresh
    let entry := createAuditEntryReplaced c newM' exM' aid
    ({ st with
        memories := updateMemoryById (updateMemoryById st.memories newM') exM'
        audit_trail := st.audit_trail ++ [entry]
        fresh := st.fresh + 1 },
      some aid)

/-- `ConflictResolver.rollback_resolution`: look the audit entry up by
id; when absent return `False`.  When present, the three action
branches only emit log lines — no memory is touched — and a rollback
marker entry is appended to the audit trail before returning `True`. -/
def rollbackResolution (st : ResolverState) (aid : String) :
    ResolverState × Bool :=
  match st.audit_trail.find? (·.audit_id == aid) with
  | none => (st, false)
  | some entry =>
    let marker : AuditEntryL :=
      { audit_id := freshId st.fresh
        user_id := entry.user_id
        action := .no_action
        strategy := .create_new
        conflict_type := entry.conflict_type
        memory_ids := entry.memory_ids
        original_content := []
        new_content := []
        rollback_original_states := []
        rollback_of := some aid }
    ({ st with audit_trail := st.audit_trail ++ [marker], fresh := st.fresh + 1 },
      true)

/-! ## Extraction pipeline tail (`src/processing/memory_processor.py`) -/

/-- The `MemoryType` enumeration (ten closed cases). -/
inductive MemoryType where
  | personal | factual | emotional | procedural | episodic
  | relational | preference | goal | skill | temporal
deriving DecidableEq

/-- A parsed LLM memory candidate (the fields steps 8–9 read; the
`confidence` field already carries the final score written back in
step 7). -/
structure ExtractedMemory where
  content : String
  memory_type : MemoryType
  confidence : ℚ
deriving DecidableEq

/-- The scorer output attached to a candidate (the field the filter and
the sort read). -/
structure ConfidenceFactors where
  final_score : ℚ
deriving DecidableEq

/-- `MemoryProcessor._get_memory_type_threshold`: the default threshold
for the seven working types, `0.5` for `personal`, `skill` and
`preference`. -/
def getMemoryTypeThreshold (mt : MemoryType) (defaultThreshold : ℚ) : ℚ :=
  match mt with
  | .temporal | .factual | .relational | .emotional
  | .goal | .episodic | .procedural => defaultThreshold
  | .personal | .skill | .preference => 1 / 2

/-- `max_memories_per_message`: `getattr(config.memory, 'max_memories', 10)`
— `MemoryConfig` defines no `max_memories` field, so the value is
always `10`. -/
def maxMemoriesPerMessage : Nat := 10

/-- Steps 8 and 9 of `MemoryProcessor.process_message`: keep the
candidates whose final score meets their per-type threshold, then sort
by final score, descending (`sorted(..., reverse=True)` is a stable
descending sort, as is `mergeSort` with the reversed comparison).  The
result is returned as `ProcessingResult.memories` with no further
truncation. -/
def filterAndSortMemories (defaultThreshold : ℚ)
    (pairs : List (ExtractedMemory × ConfidenceFactors)) :
    List (ExtractedMemory × ConfidenceFactors) :=
  (pairs.filter fun p =>
      getMemoryTypeThreshold p.1.memory_type defaultThreshold ≤ p.2.final_score)
    |>.mergeSort fun a b => b.2.final_score ≤ a.2.final_score

/-! ## Recency boost (`SearchEngine._apply_recency_boost`) -/

/-- `SearchEngine._apply_recency_boost`: `createdDaysOld` is
`(datetime.now() - memory.created_at).days` (`none` when the memory has
no `created_at`, in which case the score passes through).  A document
at most 30 days old gets its score multiplied by `1 + boost` with
`boost = max(0.1, 1 - days_old / 30 * 0.5)`; older documents are
unchanged. -/
def applyRecencyBoost (score : ℚ) (createdDaysOld : Option ℤ) : ℚ :=
  match createdDaysOld with
  | none => score
  | some d =>
    if d ≤ 30 then score * (1 + max (1 / 10) (1 - ((d : ℚ) / 30) * (1 / 2)))
    else score

/-! ## Storage search (`DatabaseManager.search_memories`)

Denotational list semantics of the SQL query

```
SELECT m.* FROM memories m
JOIN memories_fts fts ON m.memory_id = fts.memory_id
WHERE m.user_id = ? AND m.is_active = TRUE AND memories_fts MATCH ?
ORDER BY rank LIMIT ?
```

The `memories` table is a list of rows, `memories_fts` a list of FTS
rows; the FTS5 `MATCH`-and-`rank` semantics is an abstract parameter
`matchRank` mapping a query and an FTS row to `none` (no match) or
`some rank`; `ORDER BY rank` is an ascending stable sort on the rank
and `LIMIT` a prefix. -/

/-- A row of the `memories_fts` virtual table. -/
structure FtsRow where
  memory_id : String
  content : String
  category : String
deriving DecidableEq

/-- `DatabaseManager.search_memories` as a function of the two tables. -/
def searchMemoriesRows (matchRank : String → FtsRow → Option ℚ)
    (user query : String) (limit : Nat)
    (mems : List Memory) (fts : List FtsRow) : List Memory :=
  ((mems.flatMap fun m =>
      if m.user_id = user ∧ m.is_active then
        (fts.filter fun f => f.memory_id == m.memory_id).filterMap fun f =>
          (matchRank query f).map fun r => (m, r)
      else []).mergeSort fun a b => a.2 ≤ b.2).map Prod.fst
    |>.take limit

/-! ## Shared lemmas -/

deriving instance DecidableEq for Except

/-- A sanitised user id is empty exactly when no character of the id is
safe. -/
theorem sanitizeUserId_eq_empty_iff (user : String) :
    sanitizeUserId user = "" ↔ ∀ c ∈ user.data, isSafeChar c = false := by
  rw [sanitizeUserId, show ("" : String) = String.mk [] from rfl]
  constructor
  · intro h
    have h2 := congrArg String.data h
    simp only [List.filter_eq_nil_iff] at h2
    exact fun c hc => Bool.eq_false_iff.mpr (h2 c hc)
  · intro h
    have h2 : user.data.filter isSafeChar = [] :=
      List.filter_eq_nil_iff.mpr fun c hc => by simp [h c hc]
    rw [h2]

/-- `mergeSort` on a two-element list. -/
theorem mergeSort_pair {α : Type} (le : α → α → Bool) (a b : α) :
    [a, b].mergeSort le = if le a b then [a, b] else [b, a] := by
  simp [List.mergeSort, List.merge]

/-- `flatMap` only depends on the values of the function on the list. -/
theorem flatMap_congr_mem {α β : Type} {l : List α} {f g : α → List β}
    (h : ∀ a ∈ l, f a = g a) : l.flatMap f = l.flatMap g := by
  induction l with
  | nil => rfl
  | cons x xs ih =>
    simp only [List.flatMap_cons]
    rw [h x (by simp), ih fun a ha => h a (by simp [ha])]

/-! ## C1 — first access for a fresh user
(`MultiDatabaseManager.get_user_db_manager`) -/

/-- C1.  The claim says the first `get_user_db_manager` call for a
valid user id with no existing database succeeds, initialising the
schema and caching the handle.  The code disagrees: the four schema
methods `_initialize_user_database` invokes
(`create_tables_without_user_id`, `create_indexes_without_user_id`,
`create_fts_tables`, `create_fts_triggers_per_user`) are not defined by
`DatabaseSchema`, so initialisation raises and the call surfaces
`UserDatabaseError("Failed to access user database: ...")`: for every
valid user id that is not cached and whose database file does not
exist, the call returns the wrapped initialisation error, leaves the
cache unchanged, and leaves behind the freshly created user directory
and database file. -/
theorem firstAccessForFreshUserFails (user : String) (st : RouterState)
    (p : String) (hne : user ≠ "") (hmiss : st.cache.lookup user = none)
    (hpath : getUserDbPath user = .ok p) (hnofile : p ∉ st.files) :
    getUserDbManager user st =
      (.error (.accessFailed .initFailed),
        { st with dirs := listInsert (userDirOf user) st.dirs,
                  files := listInsert p st.files }) := by
  have hsan : ¬ sanitizeUserId user = "" := by
    intro h
    rw [getUserDbPath, if_pos h] at hpath
    exact Except.noConfusion hpath
  rw [getUserDbPath, if_neg hsan] at hpath
  have hp : userDirOf user ++ "/harmonia.db" = p := Except.ok.inj hpath
  subst hp
  rw [getUserDbManager, if_neg hne, getOrCreateDbManager, hmiss,
    getUserDbPath, if_neg hsan]
  simp only [initializeUserDatabase, schemaHasAttr, schemaAttrNames]
  rw [if_neg hnofile]
  simp

/-- C1 witness: the very first access for the fresh user `alice`
returns the wrapped initialisation error; the user directory and the
database file have been created, the cache stays empty. -/
theorem firstAccessForFreshUserFails_witness :
    getUserDbManager "alice" ⟨[], [], []⟩ =
      (.error (.accessFailed .initFailed),
        ⟨[], ["data/users/alice"], ["data/users/alice/harmonia.db"]⟩) := by
  have h := firstAccessForFreshUserFails "alice" ⟨[], [], []⟩
    "data/users/alice/harmonia.db" (by decide) rfl (by decide) (by decide)
  simpa [listInsert, userDirOf, sanitizeUserId, usersBasePath] using h

/-! ## C3 — user ids with unsafe characters -/

/-- C3 counterexample.  The claim says every user id containing a
character outside `[A-Za-z0-9._-]` fails with an invalid-user error.
The id `alice!` contains such a character, yet `_get_user_db_path`
succeeds, returning the path of the stripped id `alice`. -/
theorem unsafeUserIdNotRejected :
    ('!' ∈ "alice!".data ∧ isSafeChar '!' = false) ∧
      getUserDbPath "alice!" = .ok "data/users/alice/harmonia.db" := by
  decide

/-- C3 amended.  `_get_user_db_path` strips the unsafe characters and
raises invalid-user only when the id contains no safe character at all;
in that case `get_user_db_manager` surfaces the wrapped invalid-user
error without touching the filesystem or the cache.  An id with at
least one safe character never produces the invalid-user error. -/
theorem invalidUserOnlyWhenNoSafeChar (user : String) (st : RouterState)
    (hne : user ≠ "") (hmiss : st.cache.lookup user = none) :
    (getUserDbPath user = .error .invalidUser ↔
      ∀ c ∈ user.data, isSafeChar c = false)
    ∧ ((∀ c ∈ user.data, isSafeChar c = false) →
        getUserDbManager user st =
          (.error (.accessFailed .invalidUser), st)) := by
  have hchar : getUserDbPath user = .error .invalidUser ↔
      ∀ c ∈ user.data, isSafeChar c = false := by
    rw [← sanitizeUserId_eq_empty_iff, getUserDbPath]
    constructor
    · intro h
      by_contra hs
      rw [if_neg hs] at h
      exact Except.noConfusion h
    · intro h
      rw [if_pos h]
  refine ⟨hchar, fun h => ?_⟩
  have hsan : sanitizeUserId user = "" :=
    (sanitizeUserId_eq_empty_iff user).mpr h
  rw [getUserDbManager, if_neg hne, getOrCreateDbManager, hmiss,
    getUserDbPath, if_pos hsan]

/-- C3 witness: an id made only of unsafe characters is rejected with
the wrapped invalid-user error and the state is untouched. -/
theorem invalidUserOnlyWhenNoSafeChar_witness :
    getUserDbManager "!!!" ⟨[], [], []⟩ =
      (.error (.accessFailed .invalidUser), ⟨[], [], []⟩) :=
  (invalidUserOnlyWhenNoSafeChar "!!!" ⟨[], [], []⟩ (by decide) rfl).2
    (by decide)

/-! ## C4 — path invariance under removal of unsafe characters -/

/-- C4.  Two (ASCII) user ids with the same subsequence of safe
characters resolve to the same database path — so distinct raw ids such
as `alice!` and `alice?` share one underlying database. -/
theorem dbPathInvariantUnderUnsafeChars (u v : String)
    (hu : ∀ c ∈ u.data, c.toNat < 128) (hv : ∀ c ∈ v.data, c.toNat < 128)
    (h : u.data.filter isSafeChar = v.data.filter isSafeChar) :
    getUserDbPath u = getUserDbPath v := by
  clear hu hv
  simp only [getUserDbPath, userDirOf, sanitizeUserId, h]

/-- C4 witness: `alice!` and `alice?` are distinct ids with equal safe
subsequences, and they resolve to the same path. -/
theorem dbPathInvariantUnderUnsafeChars_witness :
    "alice!" ≠ "alice?" ∧
      getUserDbPath "alice!" = getUserDbPath "alice?" :=
  ⟨by decide,
    dbPathInvariantUnderUnsafeChars "alice!" "alice?" (by decide) (by decide)
      (by decide)⟩

/-! ## C9 — recency boost -/

/-- C9 counterexample.  The claim says the recency factor adds at most
`+0.5` to the relevance score.  A document created today with
unboosted score `1` gets boosted to `2`: the increment is `1`. -/
theorem recencyBoostExceedsHalf :
    applyRecencyBoost 1 (some 0) = 2 ∧
      ¬ (applyRecencyBoost 1 (some 0) - 1 ≤ 1 / 2) := by
  have h : applyRecencyBoost 1 (some 0) = 2 := by
    rw [applyRecencyBoost]
    norm_num
  exact ⟨h, by rw [h]; norm_num⟩

/-- C9 amended.  The boost is multiplicative, not additive: with
`boost_recent` on, a document at most 30 days old has its score
multiplied by `1 + max(0.1, 1 - days/30 * 0.5)`, which for a
nonnegative score lands between `1.5×` and `2×` the unboosted score;
documents older than 30 days (and documents without `created_at`) are
unchanged. -/
theorem recencyBoostMultiplicative (score : ℚ) (d : ℤ) (hs : 0 ≤ score) :
    ((0 ≤ d ∧ d ≤ 30) →
      (3 / 2) * score ≤ applyRecencyBoost score (some d) ∧
        applyRecencyBoost score (some d) ≤ 2 * score)
    ∧ (30 < d → applyRecencyBoost score (some d) = score)
    ∧ applyRecencyBoost score none = score := by
  refine ⟨fun hd => ?_, fun hd => ?_, rfl⟩
  · have hd30 : d ≤ 30 := hd.2
    have hq0 : (0 : ℚ) ≤ (d : ℚ) := by exact_mod_cast hd.1
    have hq30 : (d : ℚ) ≤ 30 := by exact_mod_cast hd30
    rw [applyRecencyBoost, if_pos hd30]
    have hmax : max (1 / 10 : ℚ) (1 - ((d : ℚ) / 30) * (1 / 2))
        = 1 - ((d : ℚ) / 30) * (1 / 2) := by
      rw [max_eq_right]
      linarith
    rw [hmax]
    constructor <;> nlinarith
  · rw [applyRecencyBoost, if_neg (by omega)]

/-- C9 witness: a document zero days old with score `1` is boosted into
the `[1.5, 2]` band. -/
theorem recencyBoostMultiplicative_witness :
    (3 / 2 : ℚ) * 1 ≤ applyRecencyBoost 1 (some 0) ∧
      applyRecencyBoost 1 (some 0) ≤ 2 * 1 :=
  (recencyBoostMultiplicative 1 0 (by norm_num)).1 ⟨by norm_num, by norm_num⟩

/-! ## C10 — strategy selection for contradictions -/

/-- C10.  For a contradiction conflict the resolver picks `replace`
exactly when the new memory is strictly more confident than the
existing one and meets the configured threshold, and picks
`user_choose` otherwise — whatever the user-preference map says
(`prefs`, including its `preferred_resolution_by_type` entry for
contradictions, is universally quantified). -/
theorem contradictionStrategyConfidenceDriven (c : Conflict)
    (prefs : UserPreferences) (h : c.conflict_type = .contradiction) :
    (determineStrategy c prefs = .replace ↔
      c.existing_memory.confidence_score.getD 0
          < c.new_memory.confidence_score.getD 0
        ∧ prefs.confidence_threshold ≤ c.new_memory.confidence_score.getD 0)
    ∧ (determineStrategy c prefs = .replace ∨
        determineStrategy c prefs = .user_choose) := by
  rw [determineStrategy, if_pos h]
  by_cases hc : c.existing_memory.confidence_score.getD 0
      < c.new_memory.confidence_score.getD 0
      ∧ prefs.confidence_threshold ≤ c.new_memory.confidence_score.getD 0
  · rw [if_pos hc]
    exact ⟨⟨fun _ => hc, fun _ => rfl⟩, .inl rfl⟩
  · rw [if_neg hc]
    exact ⟨⟨fun he => ResolutionStrategy.noConfusion he, fun h2 => absurd h2 hc⟩,
      .inr rfl⟩

/-- C10 witness: a concrete contradiction where the new memory scores
`1` against `0` with threshold `1` resolves to `replace`. -/
theorem contradictionStrategyConfidenceDriven_witness :
    determineStrategy
      { conflict_type := .contradiction, severity := .high,
        new_memory := { memory_id := "n", user_id := "u", content := "a",
                        confidence_score := some 1 },
        existing_memory := { memory_id := "e", user_id := "u", content := "b",
                             confidence_score := some 0 },
        similarity_score := 1, confidence := 1,
        details := "d", suggested_action := "resolve_contradiction" }
      { confidence_threshold := 1 } = .replace :=
  (contradictionStrategyConfidenceDriven _ _ rfl).1.mpr
    ⟨by norm_num, by norm_num⟩

/-! ## C8 — tail of the extraction pipeline -/

/-- C8 counterexample.  The claim says the returned list has at most
`max_memories` (10) entries.  `process_message` never truncates: with
eleven scored candidates that all pass their threshold, all eleven are
returned. -/
theorem noTruncationToMaxMemories :
    (filterAndSortMemories 1
        (List.replicate 11 (⟨"memory", .factual, 1⟩, (⟨1⟩ : ConfidenceFactors)))).length
        = 11
    ∧ ¬ ((filterAndSortMemories 1
        (List.replicate 11 (⟨"memory", .factual, 1⟩, (⟨1⟩ : ConfidenceFactors)))).length
          ≤ maxMemoriesPerMessage) := by
  have h : (filterAndSortMemories 1
      (List.replicate 11 (⟨"memory", .factual, 1⟩, (⟨1⟩ : ConfidenceFactors)))).length
      = 11 := by
    rw [filterAndSortMemories, List.length_mergeSort]
    decide
  exact ⟨h, by rw [h]; decide⟩

/-- C8 amended.  Steps 8–9 of `process_message` return exactly the
candidates surviving their per-type threshold, sorted by decreasing
final confidence score; the list is not truncated to `max_memories`
(that parameter only reaches the prompt text). -/
theorem survivorsSortedByScore (dt : ℚ)
    (pairs : List (ExtractedMemory × ConfidenceFactors)) :
    (filterAndSortMemories dt pairs).Pairwise
        (fun a b => b.2.final_score ≤ a.2.final_score)
    ∧ (filterAndSortMemories dt pairs).Perm
        (pairs.filter fun p =>
          getMemoryTypeThreshold p.1.memory_type dt ≤ p.2.final_score)
    ∧ ∀ p ∈ filterAndSortMemories dt pairs,
        getMemoryTypeThreshold p.1.memory_type dt ≤ p.2.final_score := by
  have hperm : (filterAndSortMemories dt pairs).Perm
      (pairs.filter fun p =>
        getMemoryTypeThreshold p.1.memory_type dt ≤ p.2.final_score) :=
    List.mergeSort_perm _ _
  refine ⟨?_, hperm, fun p hp => ?_⟩
  · have hs := @List.sorted_mergeSort _
      (fun (a b : ExtractedMemory × ConfidenceFactors) =>
        decide (b.2.final_score ≤ a.2.final_score))
      (fun a b c hab hbc => by
        simp only [decide_eq_true_eq] at *
        exact le_trans hbc hab)
      (fun a b => by
        simp only [Bool.or_eq_true, decide_eq_true_eq]
        exact le_total _ _)
      (pairs.filter fun p =>
        getMemoryTypeThreshold p.1.memory_type dt ≤ p.2.final_score)
    exact hs.imp fun h => of_decide_eq_true h
  · have hp2 := hperm.mem_iff.mp hp
    have := (List.mem_filter.mp hp2).2
    exact of_decide_eq_true this

/-! ## C2 — per-user isolation of search -/

/-- C2.  Every row returned by `search_memories` carries the searching
user id, and the result is unchanged when another user's memory (and
its FTS mirror row, carrying a fresh primary-key id) is inserted at any
position of the two tables — whatever the FTS match-and-rank semantics
is. -/
theorem searchReturnsOnlyOwnerRows
    (matchRank : String → FtsRow → Option ℚ) (user q : String) (limit : Nat) :
    (∀ mems fts m, m ∈ searchMemoriesRows matchRank user q limit mems fts →
      m.user_id = user)
    ∧ ∀ (mems1 mems2 : List Memory) (fts1 fts2 : List FtsRow)
        (b : Memory) (bf : FtsRow),
        b.user_id ≠ user →
        (∀ m ∈ mems1 ++ mems2, m.memory_id ≠ bf.memory_id) →
        searchMemoriesRows matchRank user q limit
            (mems1 ++ b :: mems2) (fts1 ++ bf :: fts2)
          = searchMemoriesRows matchRank user q limit
            (mems1 ++ mems2) (fts1 ++ fts2) := by
  constructor
  · intro mems fts m hm
    rw [searchMemoriesRows] at hm
    have hm1 := List.mem_of_mem_take hm
    obtain ⟨pr, hpr, hpr1⟩ := List.mem_map.mp hm1
    have hpr2 := (List.mergeSort_perm _ _).mem_iff.mp hpr
    obtain ⟨a, _, hin⟩ := List.mem_flatMap.mp hpr2
    by_cases hcond : a.user_id = user ∧ a.is_active = true
    · rw [if_pos hcond] at hin
      obtain ⟨f, _, hf2⟩ := List.mem_filterMap.mp hin
      obtain ⟨r, _, hr2⟩ := Option.map_eq_some'.mp hf2
      rw [← hpr1, ← hr2]
      exact hcond.1
    · rw [if_neg hcond] at hin
      exact absurd hin (List.not_mem_nil pr)
  · intro mems1 mems2 fts1 fts2 b bf hb hfresh
    simp only [searchMemoriesRows]
    have hjoin :
        ((mems1 ++ b :: mems2).flatMap fun m =>
          if m.user_id = user ∧ m.is_active then
            ((fts1 ++ bf :: fts2).filter fun f =>
                f.memory_id == m.memory_id).filterMap fun f =>
              (matchRank q f).map fun r => (m, r)
          else [])
        = ((mems1 ++ mems2).flatMap fun m =>
          if m.user_id = user ∧ m.is_active then
            ((fts1 ++ fts2).filter fun f =>
                f.memory_id == m.memory_id).filterMap fun f =>
              (matchRank q f).map fun r => (m, r)
          else []) := by
      have hfts : ∀ m ∈ mems1 ++ mems2,
          ((fts1 ++ bf :: fts2).filter fun f => f.memory_id == m.memory_id)
            = ((fts1 ++ fts2).filter fun f => f.memory_id == m.memory_id) := by
        intro m hm
        have hne : (bf.memory_id == m.memory_id) = false :=
          beq_eq_false_iff_ne.mpr fun he => hfresh m hm he.symm
        simp only [List.filter_append, List.filter_cons, hne]
        simp
      have hstep : ∀ m ∈ mems1 ++ mems2,
          (if m.user_id = user ∧ m.is_active then
            ((fts1 ++ bf :: fts2).filter fun f =>
                f.memory_id == m.memory_id).filterMap fun f =>
              (matchRank q f).map fun r => (m, r)
          else [])
          = (if m.user_id = user ∧ m.is_active then
            ((fts1 ++ fts2).filter fun f =>
                f.memory_id == m.memory_id).filterMap fun f =>
              (matchRank q f).map fun r => (m, r)
          else []) := by
        intro m hm
        rw [hfts m hm]
      have hbnil :
          (if b.user_id = user ∧ b.is_active then
            ((fts1 ++ bf :: fts2).filter fun f =>
                f.memory_id == b.memory_id).filterMap fun f =>
              (matchRank q f).map fun r => (b, r)
          else []) = ([] : List (Memory × ℚ)) :=
        if_neg fun hc => hb hc.1
      calc (mems1 ++ b :: mems2).flatMap _
          = mems1.flatMap _ ++ ((b :: mems2).flatMap _) := List.flatMap_append _ _ _
        _ = _ := by
            rw [List.flatMap_cons, hbnil, List.nil_append,
              flatMap_congr_mem fun m hm => hstep m (by simp [hm]),
              flatMap_congr_mem fun m hm => hstep m (by simp [hm]),
              ← List.flatMap_append]
    rw [hjoin]

/-- Rows for the C2 witness: user `A` owns one active memory with an
FTS mirror row, user `B` another with a colliding content but a fresh
id. -/
def c2MemA : Memory :=
  { memory_id := "A-1", user_id := "A", content := "favorite language" }

/-- The FTS mirror row of `c2MemA`. -/
def c2FtsA : FtsRow :=
  { memory_id := "A-1", content := "favorite language", category := "" }

/-- The other user's memory, identical content, fresh id. -/
def c2MemB : Memory :=
  { memory_id := "B-1", user_id := "B", content := "favorite language" }

/-- The FTS mirror row of `c2MemB`. -/
def c2FtsB : FtsRow :=
  { memory_id := "B-1", content := "favorite language", category := "" }

/-- C2 witness: inserting user `B`'s identical-content memory and its
FTS row leaves user `A`'s search result unchanged. -/
theorem searchReturnsOnlyOwnerRows_witness :
    searchMemoriesRows (fun _ _ => some 0) "A" "favorite" 10
        ([c2MemA] ++ c2MemB :: []) ([c2FtsA] ++ c2FtsB :: [])
      = searchMemoriesRows (fun _ _ => some 0) "A" "favorite" 10
        ([c2MemA] ++ []) ([c2FtsA] ++ []) :=
  (searchReturnsOnlyOwnerRows (fun _ _ => some 0) "A" "favorite" 10).2
    [c2MemA] [] [c2FtsA] [] c2MemB c2FtsB (by decide) (by decide)

/-! ## Lemmas about the entity-similarity combination -/

/-- The Jaccard overlap is symmetric. -/
theorem jaccardQ_comm (l1 l2 : List String) :
    jaccardQ l1 l2 = jaccardQ l2 l1 := by
  simp only [jaccardQ]
  rw [Finset.inter_comm, Finset.union_comm]

/-- The Jaccard overlap is nonnegative. -/
theorem jaccardQ_nonneg (l1 l2 : List String) : 0 ≤ jaccardQ l1 l2 := by
  rw [jaccardQ]
  split
  · exact le_refl 0
  · positivity

/-- The Jaccard overlap is at most one. -/
theorem jaccardQ_le_one (l1 l2 : List String) : jaccardQ l1 l2 ≤ 1 := by
  rw [jaccardQ]
  split
  · norm_num
  · rename_i h
    rw [div_le_one (by exact_mod_cast Nat.pos_of_ne_zero h)]
    exact_mod_cast Finset.card_le_card Finset.inter_subset_union

/-- A per-type contribution is symmetric. -/
theorem typeContrib_comm (l1 l2 : List String) :
    typeContrib l1 l2 = typeContrib l2 l1 := by
  by_cases h1 : l1.toFinset = ∅ <;> by_cases h2 : l2.toFinset = ∅ <;>
    simp [typeContrib, h1, h2, jaccardQ_comm l1 l2]

/-- A per-type contribution is nonnegative. -/
theorem typeContrib_fst_nonneg (l1 l2 : List String) :
    0 ≤ (typeContrib l1 l2).1 := by
  rw [typeContrib]
  split
  · exact le_refl 0
  · split
    · exact jaccardQ_nonneg l1 l2
    · exact le_refl 0

/-- A per-type contribution is bounded by its participation count. -/
theorem typeContrib_fst_le_snd (l1 l2 : List String) :
    (typeContrib l1 l2).1 ≤ ((typeContrib l1 l2).2 : ℚ) := by
  rw [typeContrib]
  split
  · norm_num
  · split
    · simpa using jaccardQ_le_one l1 l2
    · norm_num

/-- `_calculate_entity_similarity` is symmetric in its two extracted
dictionaries. -/
theorem entitySimilarityOf_comm (d1 d2 : EntityDict) :
    entitySimilarityOf d1 d2 = entitySimilarityOf d2 d1 := by
  simp only [entitySimilarityOf,
    typeContrib_comm d2.person d1.person,
    typeContrib_comm d2.location d1.location,
    typeContrib_comm d2.organization d1.organization,
    typeContrib_comm d2.date d1.date,
    typeContrib_comm d2.time d1.time]
  by_cases h : d1.isEmptyDict = true ∧ d2.isEmptyDict = true
  · rw [if_pos h, if_pos ⟨h.2, h.1⟩]
  · rw [if_neg h, if_neg
      (fun hc : d2.isEmptyDict = true ∧ d1.isEmptyDict = true =>
        h ⟨hc.2, hc.1⟩)]

/-- `_calculate_entity_similarity` is nonnegative. -/
theorem entitySimilarityOf_nonneg (d1 d2 : EntityDict) :
    0 ≤ entitySimilarityOf d1 d2 := by
  simp only [entitySimilarityOf]
  split
  · exact le_refl 0
  · simp only [List.map_cons, List.map_nil, List.sum_cons, List.sum_nil]
    split
    · exact le_refl 0
    · rename_i h
      have h1 := typeContrib_fst_nonneg d1.person d2.person
      have h2 := typeContrib_fst_nonneg d1.location d2.location
      have h3 := typeContrib_fst_nonneg d1.organization d2.organization
      have h4 := typeContrib_fst_nonneg d1.date d2.date
      have h5 := typeContrib_fst_nonneg d1.time d2.time
      have hc : (0 : ℚ) < ((typeContrib d1.person d2.person).2 +
          ((typeContrib d1.location d2.location).2 +
            ((typeContrib d1.organization d2.organization).2 +
              ((typeContrib d1.date d2.date).2 +
                ((typeContrib d1.time d2.time).2 + 0)))) : ℕ) := by
        exact_mod_cast Nat.pos_of_ne_zero h
      positivity

/-- `_calculate_entity_similarity` is at most one. -/
theorem entitySimilarityOf_le_one (d1 d2 : EntityDict) :
    entitySimilarityOf d1 d2 ≤ 1 := by
  simp only [entitySimilarityOf]
  split
  · norm_num
  · simp only [List.map_cons, List.map_nil, List.sum_cons, List.sum_nil]
    split
    · norm_num
    · rename_i h
      have h1 := typeContrib_fst_le_snd d1.person d2.person
      have h2 := typeContrib_fst_le_snd d1.location d2.location
      have h3 := typeContrib_fst_le_snd d1.organization d2.organization
      have h4 := typeContrib_fst_le_snd d1.date d2.date
      have h5 := typeContrib_fst_le_snd d1.time d2.time
      have hc : (0 : ℚ) < ((typeContrib d1.person d2.person).2 +
          ((typeContrib d1.location d2.location).2 +
            ((typeContrib d1.organization d2.organization).2 +
              ((typeContrib d1.date d2.date).2 +
                ((typeContrib d1.time d2.time).2 + 0)))) : ℕ) := by
        exact_mod_cast Nat.pos_of_ne_zero h
      rw [div_le_one hc]
      push_cast
      push_cast at h1 h2 h3 h4 h5
      linarith

/-! ## C7 — symmetry of `calculate_similarity` -/

/-- C7.  The claim says `calculate_similarity(a, b)` equals
`calculate_similarity(b, a)` to within `1e-6`.  The underlying
`difflib` ratio is order-dependent: on the pair
`("xyaby", "abxy")` the ratio is `4/9` one way and `2/3` the other, so
whatever the (structurally symmetric, `[0,1]`-valued) entity extraction
contributes, the two similarities differ by exactly `7/45 ≈ 0.156`. -/
theorem similaritySymmetryFails (E : String → EntityDict) :
    calculateSimilarity E "abxy" "xyaby"
        - calculateSimilarity E "xyaby" "abxy" = 7 / 45
    ∧ ¬ (|calculateSimilarity E "xyaby" "abxy"
        - calculateSimilarity E "abxy" "xyaby"| ≤ 1 / 1000000) := by
  have hE0 : 0 ≤ entitySimilarityOf (E "xyaby") (E "abxy") :=
    entitySimilarityOf_nonneg _ _
  have hE1 : entitySimilarityOf (E "xyaby") (E "abxy") ≤ 1 :=
    entitySimilarityOf_le_one _ _
  have hr1 : ratioOf (normalizeContent "xyaby").data
      (normalizeContent "abxy").data = 4 / 9 := by
    rw [show normalizeContent "xyaby" = "xyaby" from by decide,
      show normalizeContent "abxy" = "abxy" from by decide, ratioOf]
    rw [show matchTotal "xyaby".data "abxy".data = 2 from by decide]
    norm_num
  have hr2 : ratioOf (normalizeContent "abxy").data
      (normalizeContent "xyaby").data = 2 / 3 := by
    rw [show normalizeContent "abxy" = "abxy" from by decide,
      show normalizeContent "xyaby" = "xyaby" from by decide, ratioOf]
    rw [show matchTotal "abxy".data "xyaby".data = 3 from by decide]
    norm_num
  have hs1 : calculateSimilarity E "xyaby" "abxy"
      = 14 / 45 + (3 / 10) * entitySimilarityOf (E "xyaby") (E "abxy") := by
    rw [calculateSimilarity,
      if_neg (by simp : ¬ ("xyaby" = "" ∨ "abxy" = "")),
      if_neg (by decide : ¬ normalizeContent "xyaby" = normalizeContent "abxy"),
      hr1, min_eq_left (by linarith)]
    ring
  have hs2 : calculateSimilarity E "abxy" "xyaby"
      = 7 / 15 + (3 / 10) * entitySimilarityOf (E "xyaby") (E "abxy") := by
    rw [calculateSimilarity,
      if_neg (by simp : ¬ ("abxy" = "" ∨ "xyaby" = "")),
      if_neg (by decide : ¬ normalizeContent "abxy" = normalizeContent "xyaby"),
      hr2, entitySimilarityOf_comm, min_eq_left (by linarith)]
    ring
  constructor
  · rw [hs1, hs2]
    ring
  · rw [hs1, hs2, show 14 / 45 + (3 / 10) * entitySimilarityOf (E "xyaby") (E "abxy")
      - (7 / 15 + (3 / 10) * entitySimilarityOf (E "xyaby") (E "abxy"))
      = -(7 / 45) from by ring, abs_neg, abs_of_pos (by norm_num)]
    norm_num

/-! ## C6 — ordering of detected conflicts -/

/-- Candidate memory for the C6 counterexample. -/
def c6New : Memory :=
  { memory_id := "m-new", user_id := "u", content := "xyz",
    timestamp := some 0 }

/-- An existing memory with unrelated content but a timestamp within
two hours of the candidate: a medium-severity temporal overlap. -/
def c6Ex1 : Memory :=
  { memory_id := "m-old-1", user_id := "u", content := "qqq",
    timestamp := some 0 }

/-- An existing memory with identical content: a low-severity exact
duplicate. -/
def c6Ex2 : Memory :=
  { memory_id := "m-old-2", user_id := "u", content := "xyz" }

/-- C6.  The claim says `detect_conflicts` orders every medium-severity
conflict before every low-severity one.  The sort key is the *string*
`severity.value`, and alphabetically `"low" < "medium"`: on a candidate
with one temporal-overlap (medium) and one exact-duplicate (low)
conflict, the low-severity conflict comes first — for every entity
extractor and every behaviour of the regex contradiction test. -/
theorem conflictsOrderLowBeforeMedium (E : String → EntityDict)
    (isContra : String → String → Bool) :
    (detectConflicts E isContra c6New [c6Ex1, c6Ex2]).map
        (fun c => (c.conflict_type, c.severity))
      = [(.exact_duplicate, .low), (.temporal_overlap, .medium)] := by
  have he0 : 0 ≤ entitySimilarityOf (E "xyz") (E "qqq") :=
    entitySimilarityOf_nonneg _ _
  have he1 : entitySimilarityOf (E "xyz") (E "qqq") ≤ 1 :=
    entitySimilarityOf_le_one _ _
  have hs1 : calculateSimilarity E "xyz" "qqq"
      = (3 / 10) * entitySimilarityOf (E "xyz") (E "qqq") := by
    rw [calculateSimilarity, if_neg (by simp), if_neg (by decide),
      show ratioOf (normalizeContent "xyz").data (normalizeContent "qqq").data
          = 0 from by
        rw [show normalizeContent "xyz" = "xyz" from by decide,
          show normalizeContent "qqq" = "qqq" from by decide, ratioOf,
          show matchTotal "xyz".data "qqq".data = 0 from by decide]
        norm_num,
      min_eq_left (by linarith)]
    ring
  have hs2 : calculateSimilarity E "xyz" "xyz" = 1 := by
    rw [calculateSimilarity, if_neg (by simp), if_pos rfl]
  have hc1 : detectConflictType isContra c6New c6Ex1
      (calculateSimilarity E c6New.content c6Ex1.content)
      = some ⟨.temporal_overlap, .medium, c6New, c6Ex1,
          (3 / 10) * entitySimilarityOf (E "xyz") (E "qqq"), 7 / 10,
          "Temporal overlap detected", "check_temporal_conflict"⟩ := by
    rw [show c6New.content = "xyz" from rfl,
      show c6Ex1.content = "qqq" from rfl, hs1, detectConflictType,
      if_neg (by linarith :
        ¬ (95 / 100 : ℚ) ≤ (3 / 10) * entitySimilarityOf (E "xyz") (E "qqq")),
      if_neg (by linarith :
        ¬ (6 / 10 : ℚ) ≤ (3 / 10) * entitySimilarityOf (E "xyz") (E "qqq")),
      if_pos (by
        simp only [hasTemporalOverlap, c6New, c6Ex1, decide_eq_true_eq]
        norm_num)]
  have hc2 : detectConflictType isContra c6New c6Ex2
      (calculateSimilarity E c6New.content c6Ex2.content)
      = some ⟨.exact_duplicate, .low, c6New, c6Ex2, 1, 95 / 100,
          "Nearly identical content", "update_timestamp"⟩ := by
    rw [show c6New.content = "xyz" from rfl,
      show c6Ex2.content = "xyz" from rfl, hs2, detectConflictType,
      if_pos (by norm_num : (95 / 100 : ℚ) ≤ 1)]
  rw [detectConflicts,
    show ([c6Ex1, c6Ex2].filter (·.is_active)) = [c6Ex1, c6Ex2] from by decide]
  simp only [List.filterMap_cons, List.filterMap_nil, hc1, hc2]
  rw [mergeSort_pair]
  rw [show conflictSortLe
      ⟨.temporal_overlap, .medium, c6New, c6Ex1,
        (3 / 10) * entitySimilarityOf (E "xyz") (E "qqq"), 7 / 10,
        "Temporal overlap detected", "check_temporal_conflict"⟩
      ⟨.exact_duplicate, .low, c6New, c6Ex2, 1, 95 / 100,
        "Nearly identical content", "update_timestamp"⟩ = false from by
    rw [conflictSortLe]
    rw [show pyStrLt (ConflictSeverity.medium.value)
        (ConflictSeverity.low.value) = false from by decide,
      show ((ConflictSeverity.medium.value == ConflictSeverity.low.value) : Bool)
        = false from by decide]
    simp]
  simp

/-! ## C5 — rollback of a recorded resolution -/

/-- The new memory of the C5 resolution. -/
def c5New : Memory :=
  { memory_id := "m2", user_id := "u", content := "i moved to new york",
    confidence_score := some 1, created_at := some 1 }

/-- The existing memory the resolution archives. -/
def c5Old : Memory :=
  { memory_id := "m1", user_id := "u", content := "i live in boston",
    confidence_score := some 0, created_at := some 0 }

/-- The contradiction conflict between the two. -/
def c5Conflict : Conflict :=
  { conflict_type := .contradiction, severity := .high,
    new_memory := c5New, existing_memory := c5Old,
    similarity_score := 1, confidence := 1,
    details := "Contradictory information detected",
    suggested_action := "resolve_contradiction" }

/-- Initial resolver state: the existing memory is active, the audit
trail empty. -/
def c5State : ResolverState :=
  { memories := [c5Old], audit_trail := [], fresh := 0, now := 100 }

/-- C5.  The claim says `rollback_resolution` restores the state
captured in the rollback payload — archived memories become active
again.  The code only logs what it *would* restore: after a replace
resolution archives memory `m1` and records audit entry `uuid-0`,
rolling that entry back returns `True` yet changes no memory — `m1`
stays archived (`is_active = false`), while the claim requires it to be
active again. -/
theorem rollbackLeavesArchivedMemoryInactive :
    determineStrategy c5Conflict {} = .replace
    ∧ (resolveConflictReplace c5State c5Conflict {}).2 = some "uuid-0"
    ∧ ((resolveConflictReplace c5State c5Conflict {}).1.memories.find?
        (·.memory_id == "m1")).map (·.is_active) = some false
    ∧ (rollbackResolution
        (resolveConflictReplace c5State c5Conflict {}).1 "uuid-0").2 = true
    ∧ (rollbackResolution
          (resolveConflictReplace c5State c5Conflict {}).1 "uuid-0").1.memories
        = (resolveConflictReplace c5State c5Conflict {}).1.memories
    ∧ ((rollbackResolution
          (resolveConflictReplace c5State c5Conflict {}).1 "uuid-0").1.memories.find?
        (·.memory_id == "m1")).map (·.is_active) = some false := by
  refine ⟨?_, rfl, rfl, rfl, rfl, rfl⟩
  simp only [determineStrategy, c5Conflict, c5New, c5Old, Option.getD_some]
  norm_num

end Harmonia
